import Mathlib

/-!
Shallow embedding of the two components documented in the specification of
the Gestor_Vacantes job-board application:

* the currency conversion cache (`CurrencyService` in the currency service
  module): `isCacheValid`, `getRates`, `convertCurrency`, the hardcoded
  fallback table and the single fixed-key cache; and
* the session/profile synchronizer (`AuthProvider` in
  `src/contexts/AuthContext.tsx`): `loadUserProfile`, `handleSignOut`, and the
  `onAuthStateChange` event handler.

Network and backend effects are modelled as explicit parameters: a `world`
function gives the outcome of the rate-API fetch per base currency, and the
profile query / remote sign-out outcomes are passed in as data.  Timestamps
are natural-number milliseconds; JS `number` rates are modelled as `ℚ`.
-/

namespace GestorVacantes

/-! ## Currency service (`CurrencyService`) -/

/-- `interface ExchangeRates { [key: string]: number }` — a rate table,
modelled as an association list from currency code to rate. -/
abbrev ExchangeRates := List (String × ℚ)

/-- JS property access `rates[code]`: `none` models `undefined`. -/
def lookupRate (rates : ExchangeRates) (code : String) : Option ℚ :=
  List.lookup code rates

/-- `CACHE_DURATION = 60 * 60 * 1000` (one hour in milliseconds). -/
def CACHE_DURATION : ℕ := 60 * 60 * 1000

/-- `interface CacheItem { rates: ExchangeRates; timestamp: number }`. -/
structure CacheItem where
  rates : ExchangeRates
  timestamp : ℕ
deriving DecidableEq

/-- The service state: `private cache: CacheItem | null`.  The code persists
`this.cache` to local storage under the single fixed key `CACHE_KEY` and
reloads it at construction; in-memory and persisted cache therefore hold the
same value and are modelled as this one field. -/
structure CurrencyState where
  cache : Option CacheItem
deriving DecidableEq

/-- `isCacheValid()`: cache present and `Date.now() - timestamp < CACHE_DURATION`. -/
def isCacheValid (now : ℕ) (st : CurrencyState) : Bool :=
  match st.cache with
  | none => false
  | some c => (now : ℤ) - (c.timestamp : ℤ) < (CACHE_DURATION : ℤ)

/-- Outcome of `fetch(EXCHANGE_API_URL/baseCurrency)` followed by the
`response.ok` and `data.result === 'success'` checks: `success` carries
`data.conversion_rates`; `failure` covers a non-2xx response, a parse error,
or a non-`success` provider status (all reach the same `catch`). -/
inductive FetchOutcome where
  | success (conversionRates : ExchangeRates)
  | failure
deriving DecidableEq

/-- The hardcoded fallback table returned by `getRates` when the fetch fails
and no cache entry exists. -/
def fallbackRates : ExchangeRates :=
  [("USD", 1), ("EUR", 85/100), ("GBP", 73/100), ("JPY", 110), ("CAD", 125/100),
   ("AUD", 135/100), ("CHF", 92/100), ("CNY", 645/100), ("MXN", 205/10), ("BRL", 52/10)]

/-- Result of a `getRates` call: the returned table, the service state after
the call, and how many network fetches the call performed. -/
structure RatesResult where
  rates : ExchangeRates
  state : CurrencyState
  networkCalls : ℕ
deriving DecidableEq

/-- The `try`/`catch` body of `getRates` entered when the cache is not valid:
fetch; on success store `{rates, timestamp: Date.now()}` (also persisted) and
return it; on failure return the existing cache entry however stale, else the
hardcoded fallback. -/
def fetchRates (world : String → FetchOutcome) (now : ℕ) (baseCurrency : String)
    (st : CurrencyState) : RatesResult :=
  match world baseCurrency with
  | .success rates => ⟨rates, ⟨some ⟨rates, now⟩⟩, 1⟩
  | .failure =>
    match st.cache with
    | some c => ⟨c.rates, st, 1⟩
    | none => ⟨fallbackRates, st, 1⟩

/-- `async getRates(baseCurrency)`: if `this.isCacheValid() && this.cache`,
return the cached table with no network call; otherwise fetch. -/
def getRates (world : String → FetchOutcome) (now : ℕ) (baseCurrency : String)
    (st : CurrencyState) : RatesResult :=
  if isCacheValid now st then
    match st.cache with
    | some c => ⟨c.rates, st, 0⟩
    | none => fetchRates world now baseCurrency st
  else fetchRates world now baseCurrency st

/-- Result value of `convertCurrency`: a returned number or a thrown error
message. -/
inductive ConvertResult where
  | ok (value : ℚ)
  | error (msg : String)
deriving DecidableEq

/-- Outcome of a `convertCurrency` call, with resulting state and network
call count. -/
structure ConvertOutcome where
  result : ConvertResult
  state : CurrencyState
  networkCalls : ℕ
deriving DecidableEq

/-- The message of the error thrown by `convertCurrency`. -/
def unavailableRateMsg (toCurrency : String) : String :=
  "Tasa de cambio no disponible para " ++ toCurrency

/-- `async convertCurrency(amount, fromCurrency, toCurrency)`: returns
`amount` when the currencies are equal; otherwise resolves rates via
`getRates(fromCurrency)` and multiplies.  The JS guard is `if (!rate) throw`,
which fires both when `rates[toCurrency]` is `undefined` and when it is `0`. -/
def convertCurrency (world : String → FetchOutcome) (now : ℕ) (amount : ℚ)
    (fromCurrency toCurrency : String) (st : CurrencyState) : ConvertOutcome :=
  if fromCurrency = toCurrency then ⟨.ok amount, st, 0⟩
  else
    let r := getRates world now fromCurrency st
    match lookupRate r.rates toCurrency with
    | none => ⟨.error (unavailableRateMsg toCurrency), r.state, r.networkCalls⟩
    | some rate =>
      if rate = 0 then ⟨.error (unavailableRateMsg toCurrency), r.state, r.networkCalls⟩
      else ⟨.ok (amount * rate), r.state, r.networkCalls⟩

/-! ## Session/profile synchronizer (`AuthProvider`) -/

/-- `user_type: 'applicant' | 'employer'`. -/
inductive UserType where
  | applicant
  | employer
deriving DecidableEq

/-- The `Profile` row type of `AuthContext.tsx`. -/
structure Profile where
  id : String
  email : String
  full_name : String
  user_type : UserType
  phone : Option String
  location : Option String
  skills : Option (List String)
  experience : Option String
  resume_url : Option String
  company_name : Option String
  company_description : Option String
  avatar_url : Option String
deriving DecidableEq

/-- The identity-provider session (`AuthUser` / `session.user`); only the user
id is consumed by the synchronizer. -/
structure Session where
  id : String
deriving DecidableEq

/-- The UI-observable tuple held in React state:
`(user, profile, loading, error, isAuthenticated)`. -/
structure AuthState where
  user : Option Session
  profile : Option Profile
  loading : Bool
  error : Option String
  isAuthenticated : Bool
deriving DecidableEq

/-- A `navigate(path, { replace })` call emitted by the synchronizer. -/
inductive Nav where
  | navigate (path : String) (replaceFlag : Bool)
deriving DecidableEq

/-- Outcome of the remote `supabaseSignOut()` call: `fail msg` models the call
throwing an error whose `.message` is `msg`. -/
inductive SignOutResult where
  | ok
  | fail (msg : String)
deriving DecidableEq

/-- Outcome of the profile query
`supabase.from('profiles').select('*').eq('id', userId).single()`:
`ok` is success with a row, `okNone` success with `data` null, and
`err msg status` a `profileError` whose `.message` is `msg` and whose
`.status` is `status` (`none` models `undefined`). -/
inductive ProfileFetch where
  | ok (data : Profile)
  | okNone
  | err (msg : String) (status : Option ℕ)
deriving DecidableEq

/-- JS `error.message || 'default'`: an empty message falls back to the
default string. -/
def errMessage (msg dflt : String) : String :=
  if msg = "" then dflt else msg

/-- `handleSignOut`: awaits `supabaseSignOut()` and only afterwards clears
`user`, `profile` and `isAuthenticated` and navigates to `/login`; if the
remote call throws, the `catch` merely records the error message. -/
def handleSignOut (so : SignOutResult) (st : AuthState) : AuthState × List Nav :=
  match so with
  | .ok =>
    ({ st with user := none, profile := none, isAuthenticated := false },
     [Nav.navigate "/login" true])
  | .fail msg =>
    ({ st with error := some (errMessage msg "Error al cerrar sesión") }, [])

/-- `loadUserProfile(userId)`: on success with a row, store the profile, set
`isAuthenticated`, and redirect by `user_type` when the current path is
`/login` or `/register`; a null row throws `'No se encontró el perfil del
usuario'`; the `catch` records the error message and, when `error.status` is
`401` or `403`, awaits `handleSignOut()`. -/
def loadUserProfile (userId : String) (fetch : ProfileFetch) (so : SignOutResult)
    (currentPath : String) (st : AuthState) : AuthState × List Nav :=
  match fetch with
  | .ok data =>
    let st1 := { st with profile := some data, isAuthenticated := true }
    if currentPath = "/login" ∨ currentPath = "/register" then
      if data.user_type = UserType.employer then (st1, [Nav.navigate "/dashboard" true])
      else (st1, [Nav.navigate "/jobs" true])
    else (st1, [])
  | .okNone =>
    ({ st with error := some "No se encontró el perfil del usuario" }, [])
  | .err msg status =>
    let st1 := { st with error := some (errMessage msg "Error al cargar el perfil del usuario") }
    if status = some 401 ∨ status = some 403 then handleSignOut so st1
    else (st1, [])

/-- An identity-provider auth event as delivered to the `onAuthStateChange`
callback; `signedIn` carries the non-null session checked by
`event === 'SIGNED_IN' && session`. -/
inductive AuthEvent where
  | signedIn (session : Session)
  | signedOut
  | otherEvent
deriving DecidableEq

/-- The environment a single handler run observes: the outcome of its nested
profile fetch, the outcome of a remote sign-out should one be attempted, and
`window.location.pathname` at the time of the run. -/
structure HandlerEnv where
  fetch : ProfileFetch
  so : SignOutResult
  currentPath : String
deriving DecidableEq

/-- The `onAuthStateChange` callback body: `SIGNED_IN` sets the user then
awaits `loadUserProfile`; `SIGNED_OUT` clears user, profile and the auth
flag; other events are ignored. -/
def onAuthStateChange (env : HandlerEnv) (event : AuthEvent) (st : AuthState) :
    AuthState × List Nav :=
  match event with
  | .signedIn session =>
    let st1 := { st with user := some session }
    loadUserProfile session.id env.fetch env.so env.currentPath st1
  | .signedOut =>
    ({ st with user := none, profile := none, isAuthenticated := false }, [])
  | .otherEvent => (st, [])

/-- Modelled from the spec: the identity-provider subscription delivers at
most one event at a time and each handler runs to completion (including its
nested profile fetch) before the next queued event is processed (spec sec. 5
ordering guarantee; the emitter itself lives in the external client library).
Events are therefore processed sequentially in delivery order. -/
def processEvents (events : List (AuthEvent × HandlerEnv)) (st : AuthState) :
    AuthState × List Nav :=
  match events with
  | [] => (st, [])
  | (e, env) :: rest =>
    let r1 := onAuthStateChange env e st
    let r2 := processEvents rest r1.1
    (r2.1, r1.2 ++ r2.2)

/-! ## Concrete sample values used by witnesses and counterexamples -/

def demoRates : ExchangeRates := [("USD", 1), ("EUR", 9/10)]

def demoWorld : String → FetchOutcome := fun _ => FetchOutcome.success demoRates

def failWorld : String → FetchOutcome := fun _ => FetchOutcome.failure

def zeroRateState : CurrencyState := ⟨some ⟨[("USD", 1), ("ZZZ", 0)], 0⟩⟩

/-! ## Currency service theorems -/

/-- C4: with a cache entry strictly younger than the 1-hour TTL, `getRates`
returns the cached table unchanged, leaves the state unchanged, and performs
no network call; consequently a first call that fetches successfully followed
by a second call within the TTL window performs exactly one network call in
total. -/
theorem getRates_fresh_cache_no_network :
    (∀ (world : String → FetchOutcome) (now : ℕ) (base : String) (st : CurrencyState)
       (c : CacheItem), st.cache = some c →
       (now : ℤ) - (c.timestamp : ℤ) < (CACHE_DURATION : ℤ) →
       getRates world now base st = ⟨c.rates, st, 0⟩) ∧
    (∀ (world1 world2 : String → FetchOutcome) (now1 now2 : ℕ) (base1 base2 : String)
       (r : ExchangeRates), world1 base1 = FetchOutcome.success r →
       (now2 : ℤ) - (now1 : ℤ) < (CACHE_DURATION : ℤ) →
       (getRates world1 now1 base1 ⟨none⟩).networkCalls +
         (getRates world2 now2 base2 (getRates world1 now1 base1 ⟨none⟩).state).networkCalls
           = 1) := by
  constructor
  · intro world now base st c hc hfresh
    have hv : isCacheValid now st = true := by
      simp [isCacheValid, hc]
      exact hfresh
    simp [getRates, hv, hc]
  · intro world1 world2 now1 now2 base1 base2 r hs hfresh
    have h1 : getRates world1 now1 base1 ⟨none⟩ = ⟨r, ⟨some ⟨r, now1⟩⟩, 1⟩ := by
      simp [getRates, isCacheValid, fetchRates, hs]
    have hv : isCacheValid now2 (⟨some ⟨r, now1⟩⟩ : CurrencyState) = true := by
      simp [isCacheValid]
      exact hfresh
    rw [h1]
    simp [getRates, hv]

/-- Witness for C4 at concrete inputs. -/
theorem getRates_fresh_cache_no_network_witness :
    getRates failWorld 10 "USD" ⟨some ⟨demoRates, 0⟩⟩ =
      ⟨demoRates, ⟨some ⟨demoRates, 0⟩⟩, 0⟩ ∧
    (getRates demoWorld 0 "USD" ⟨none⟩).networkCalls +
      (getRates demoWorld 1800000 "EUR" (getRates demoWorld 0 "USD" ⟨none⟩).state).networkCalls
        = 1 :=
  ⟨getRates_fresh_cache_no_network.1 failWorld 10 "USD" _ ⟨demoRates, 0⟩ rfl (by decide),
   getRates_fresh_cache_no_network.2 demoWorld demoWorld 0 1800000 "USD" "EUR" demoRates
     rfl (by decide)⟩

/-- C5: `getRates` never propagates an error: on a failing fetch it returns
the cached table whenever a cache entry exists (however stale), otherwise the
hardcoded fallback table, which contains USD (at rate 1), EUR and GBP. -/
theorem getRates_failure_fallback :
    (∀ (world : String → FetchOutcome) (now : ℕ) (base : String) (c : CacheItem),
       world base = FetchOutcome.failure →
       (getRates world now base ⟨some c⟩).rates = c.rates) ∧
    (∀ (world : String → FetchOutcome) (now : ℕ) (base : String),
       world base = FetchOutcome.failure →
       (getRates world now base ⟨none⟩).rates = fallbackRates) ∧
    lookupRate fallbackRates "USD" = some 1 ∧
    (lookupRate fallbackRates "EUR").isSome = true ∧
    (lookupRate fallbackRates "GBP").isSome = true := by
  refine ⟨?_, ?_, by decide, by decide, by decide⟩
  · intro world now base c hfail
    by_cases hv : isCacheValid now (⟨some c⟩ : CurrencyState) = true
    · simp [getRates, hv]
    · simp [getRates, hv, fetchRates, hfail]
  · intro world now base
    intro hfail
    simp [getRates, isCacheValid, fetchRates, hfail]

/-- Witness for C5 at concrete inputs. -/
theorem getRates_failure_fallback_witness :
    (getRates failWorld 9999999 "USD" ⟨some ⟨demoRates, 0⟩⟩).rates = demoRates ∧
    (getRates failWorld 0 "USD" ⟨none⟩).rates = fallbackRates :=
  ⟨getRates_failure_fallback.1 failWorld 9999999 "USD" ⟨demoRates, 0⟩ rfl,
   getRates_failure_fallback.2.1 failWorld 0 "USD" rfl⟩

/-- C6: converting a currency to itself returns the amount unchanged, with no
network call and an unchanged cache state. -/
theorem convertCurrency_same_currency (world : String → FetchOutcome) (now : ℕ)
    (amount : ℚ) (c : String) (st : CurrencyState) :
    convertCurrency world now amount c c st = ⟨ConvertResult.ok amount, st, 0⟩ := by
  simp [convertCurrency]

/-- C7 counterexample: the claim says `convertCurrency` fails exactly when
`toCurrency` is absent from the resolved table, but the JS guard `if (!rate)`
also fires on a present rate of `0`: with a valid cached table mapping `ZZZ`
to `0`, the lookup succeeds yet the conversion errors. -/
theorem convert_zero_rate_counterexample :
    lookupRate (getRates failWorld 0 "USD" zeroRateState).rates "ZZZ" = some 0 ∧
    (convertCurrency failWorld 0 100 "USD" "ZZZ" zeroRateState).result =
      ConvertResult.error (unavailableRateMsg "ZZZ") :=
  ⟨rfl, rfl⟩

/-- C7 (amended): for distinct currencies, `convertCurrency` resolves the
table via `getRates(fromCurrency)` and fails with the unavailable-rate error
exactly when `toCurrency` is absent from the resolved table or its entry is
`0`; otherwise it returns `amount * rate`. -/
theorem convert_error_iff_rate_missing_or_zero (world : String → FetchOutcome)
    (now : ℕ) (amount : ℚ) (fromCurrency toCurrency : String) (st : CurrencyState)
    (h : fromCurrency ≠ toCurrency) :
    (convertCurrency world now amount fromCurrency toCurrency st).result =
      (match lookupRate (getRates world now fromCurrency st).rates toCurrency with
       | none => ConvertResult.error (unavailableRateMsg toCurrency)
       | some rate =>
         if rate = 0 then ConvertResult.error (unavailableRateMsg toCurrency)
         else ConvertResult.ok (amount * rate)) := by
  simp only [convertCurrency, if_neg h]
  cases hx : lookupRate (getRates world now fromCurrency st).rates toCurrency with
  | none => simp [hx]
  | some rate =>
    by_cases hz : rate = 0 <;> simp [hx, hz]

/-- Witness for C7 (amended) at concrete inputs. -/
theorem convert_error_iff_rate_missing_or_zero_witness :
    "USD" ≠ "ZZZ" ∧
    (convertCurrency failWorld 0 100 "USD" "ZZZ" zeroRateState).result =
      (match lookupRate (getRates failWorld 0 "USD" zeroRateState).rates "ZZZ" with
       | none => ConvertResult.error (unavailableRateMsg "ZZZ")
       | some rate =>
         if rate = 0 then ConvertResult.error (unavailableRateMsg "ZZZ")
         else ConvertResult.ok (100 * rate)) :=
  ⟨by decide,
   convert_error_iff_rate_missing_or_zero failWorld 0 100 "USD" "ZZZ" zeroRateState
     (by decide)⟩

/-- C8 counterexample: the claim says every table `getRates` returns maps the
requested base to `1` when present, but the hardcoded fallback (a USD-based
table) is returned for any requested base: `getRates("EUR")` with no cache
and a failing fetch returns a table mapping `EUR` to `0.85 ≠ 1`. -/
theorem rates_base_invariant_counterexample :
    (getRates failWorld 0 "EUR" ⟨none⟩).rates = fallbackRates ∧
    lookupRate fallbackRates "EUR" = some (85/100 : ℚ) ∧ (85/100 : ℚ) ≠ 1 :=
  ⟨rfl, rfl, by norm_num⟩

/-- C8 (amended): `getRates` does not enforce the base-rate invariant: a
successfully fetched table is stored and returned unchanged (so the invariant
holds exactly when the provider's table satisfies it), and the hardcoded
fallback satisfies it only for base `USD`, where `fallback["USD"] = 1`. -/
theorem getRates_invariant_unenforced (world : String → FetchOutcome) (now : ℕ)
    (base : String) (st : CurrencyState) (r : ExchangeRates)
    (hv : isCacheValid now st = false) (hs : world base = FetchOutcome.success r) :
    (getRates world now base st).rates = r ∧
    lookupRate fallbackRates "USD" = some 1 := by
  constructor
  · simp [getRates, hv, fetchRates, hs]
  · decide

/-- Witness for C8 (amended) at concrete inputs. -/
theorem getRates_invariant_unenforced_witness :
    isCacheValid 0 ⟨none⟩ = false ∧
    demoWorld "USD" = FetchOutcome.success demoRates ∧
    ((getRates demoWorld 0 "USD" ⟨none⟩).rates = demoRates ∧
     lookupRate fallbackRates "USD" = some 1) :=
  ⟨rfl, rfl, getRates_invariant_unenforced demoWorld 0 "USD" ⟨none⟩ demoRates rfl rfl⟩

/-- C10: the cache is a single fixed-key entry that records no base currency:
after a successful `getRates(X)`, a `getRates(Y)` for a different currency
within the TTL returns the X-based table with no network call; a failing
fetch for `Y` falls back to whatever table is cached; and with no cache the
USD-based hardcoded fallback is returned for any requested base. -/
theorem cache_ignores_base_currency :
    (∀ (X Y : String) (world1 world2 : String → FetchOutcome) (now0 now1 : ℕ)
       (r : ExchangeRates), X ≠ Y → world1 X = FetchOutcome.success r →
       (now1 : ℤ) - (now0 : ℤ) < (CACHE_DURATION : ℤ) →
       getRates world2 now1 Y (getRates world1 now0 X ⟨none⟩).state =
         ⟨r, (getRates world1 now0 X ⟨none⟩).state, 0⟩) ∧
    (∀ (Y : String) (world : String → FetchOutcome) (now : ℕ) (c : CacheItem),
       world Y = FetchOutcome.failure →
       (getRates world now Y ⟨some c⟩).rates = c.rates) ∧
    (∀ (Y : String) (world : String → FetchOutcome) (now : ℕ),
       world Y = FetchOutcome.failure →
       (getRates world now Y ⟨none⟩).rates = fallbackRates) := by
  refine ⟨?_, ?_, ?_⟩
  · intro X Y world1 world2 now0 now1 r hXY hs hfresh
    have h1 : getRates world1 now0 X ⟨none⟩ = ⟨r, ⟨some ⟨r, now0⟩⟩, 1⟩ := by
      simp [getRates, isCacheValid, fetchRates, hs]
    have hv : isCacheValid now1 (⟨some ⟨r, now0⟩⟩ : CurrencyState) = true := by
      simp [isCacheValid]
      exact hfresh
    rw [h1]
    simp [getRates, hv]
  · intro Y world now c hfail
    by_cases hv : isCacheValid now (⟨some c⟩ : CurrencyState) = true
    · simp [getRates, hv]
    · simp [getRates, hv, fetchRates, hfail]
  · intro Y world now hfail
    simp [getRates, isCacheValid, fetchRates, hfail]

/-- Witness for C10 at concrete inputs. -/
theorem cache_ignores_base_currency_witness :
    getRates failWorld 10 "EUR" (getRates demoWorld 0 "USD" ⟨none⟩).state =
      ⟨demoRates, (getRates demoWorld 0 "USD" ⟨none⟩).state, 0⟩ ∧
    (getRates failWorld 5000000 "EUR" ⟨some ⟨demoRates, 0⟩⟩).rates = demoRates ∧
    (getRates failWorld 0 "EUR" ⟨none⟩).rates = fallbackRates :=
  ⟨cache_ignores_base_currency.1 "USD" "EUR" demoWorld failWorld 0 10 demoRates
     (by decide) rfl (by decide),
   cache_ignores_base_currency.2.1 "EUR" failWorld 5000000 ⟨demoRates, 0⟩ rfl,
   cache_ignores_base_currency.2.2 "EUR" failWorld 0 rfl⟩

/-! ## Session/profile synchronizer theorems -/

def sampleProfile : Profile :=
  ⟨"u1", "u1@mail.com", "User One", UserType.applicant,
   none, none, none, none, none, none, none, none⟩

def sampleSession : Session := ⟨"u1"⟩

/-- An authenticated-looking state reached after a successful sign-in and
profile load. -/
def authedState : AuthState := ⟨some sampleSession, some sampleProfile, false, none, true⟩

/-- An authenticated state carrying a leftover error message from an earlier
transient failure. -/
def staleErrorState : AuthState :=
  ⟨some sampleSession, none, false, some "previous error", false⟩

/-- C1: with events processed strictly in delivery order, each handler running
to completion (its nested profile fetch included) before the next event, a
`SIGNED_IN` event followed by a `SIGNED_OUT` event leaves the tuple
unauthenticated — `profile = none` and `isAuthenticated = false` — whatever
the initial state and whatever the profile fetch and sign-out outcomes of
each handler run. -/
theorem signed_in_then_signed_out_not_authenticated (st : AuthState) (s : Session)
    (env1 env2 : HandlerEnv) :
    (processEvents [(AuthEvent.signedIn s, env1), (AuthEvent.signedOut, env2)] st).1.profile
        = none ∧
    (processEvents [(AuthEvent.signedIn s, env1), (AuthEvent.signedOut, env2)] st).1.isAuthenticated
        = false := by
  constructor <;> rfl

/-- C2 counterexample: the claim asserts the forced sign-out clears the tuple
regardless of whether the remote sign-out call succeeds, but `handleSignOut`
clears `user`/`profile`/`isAuthenticated` only after `supabaseSignOut()`
returns: when the remote call throws, the `catch` records the message and the
authenticated tuple survives a 401 profile-fetch failure intact. -/
theorem auth_error_signout_failure_counterexample :
    (loadUserProfile "u1" (ProfileFetch.err "JWT expired" (some 401))
        (SignOutResult.fail "network down") "/jobs" authedState).1.user = some sampleSession ∧
    (loadUserProfile "u1" (ProfileFetch.err "JWT expired" (some 401))
        (SignOutResult.fail "network down") "/jobs" authedState).1.profile = some sampleProfile ∧
    (loadUserProfile "u1" (ProfileFetch.err "JWT expired" (some 401))
        (SignOutResult.fail "network down") "/jobs" authedState).1.isAuthenticated = true := by
  refine ⟨rfl, rfl, rfl⟩

/-- C2 (amended): when a profile fetch fails with provider status 401 or 403,
a forced sign-out is attempted; provided the remote sign-out call succeeds,
the resulting state has `user = none`, `profile = none` and
`isAuthenticated = false`, whatever the prior state; if the remote call
fails, the prior tuple is preserved and only the error field changes. -/
theorem auth_error_forces_signout (userId currentPath msg : String)
    (status : Option ℕ) (st : AuthState)
    (h : status = some 401 ∨ status = some 403) :
    (loadUserProfile userId (ProfileFetch.err msg status) SignOutResult.ok
        currentPath st).1.user = none ∧
    (loadUserProfile userId (ProfileFetch.err msg status) SignOutResult.ok
        currentPath st).1.profile = none ∧
    (loadUserProfile userId (ProfileFetch.err msg status) SignOutResult.ok
        currentPath st).1.isAuthenticated = false := by
  rcases h with h | h <;> subst h <;> exact ⟨rfl, rfl, rfl⟩

/-- Witness for C2 (amended) at concrete inputs. -/
theorem auth_error_forces_signout_witness :
    ((some 401 : Option ℕ) = some 401 ∨ (some 401 : Option ℕ) = some 403) ∧
    ((loadUserProfile "u1" (ProfileFetch.err "JWT expired" (some 401)) SignOutResult.ok
        "/jobs" authedState).1.user = none ∧
     (loadUserProfile "u1" (ProfileFetch.err "JWT expired" (some 401)) SignOutResult.ok
        "/jobs" authedState).1.profile = none ∧
     (loadUserProfile "u1" (ProfileFetch.err "JWT expired" (some 401)) SignOutResult.ok
        "/jobs" authedState).1.isAuthenticated = false) :=
  ⟨Or.inl rfl,
   auth_error_forces_signout "u1" "/jobs" "JWT expired" (some 401) authedState (Or.inl rfl)⟩

/-- C3: when a profile fetch fails with an error whose status is not 401 and
not 403 (network/transient), the prior `user`, `profile` and
`isAuthenticated` values are preserved, the error field becomes non-null, and
no sign-out or navigation is performed. -/
theorem transient_error_preserves_state (userId currentPath msg : String)
    (status : Option ℕ) (so : SignOutResult) (st : AuthState)
    (h : ¬(status = some 401 ∨ status = some 403)) :
    (loadUserProfile userId (ProfileFetch.err msg status) so currentPath st).1.user
        = st.user ∧
    (loadUserProfile userId (ProfileFetch.err msg status) so currentPath st).1.profile
        = st.profile ∧
    (loadUserProfile userId (ProfileFetch.err msg status) so currentPath st).1.isAuthenticated
        = st.isAuthenticated ∧
    (loadUserProfile userId (ProfileFetch.err msg status) so currentPath st).1.error
        ≠ none ∧
    (loadUserProfile userId (ProfileFetch.err msg status) so currentPath st).2 = [] := by
  simp [loadUserProfile, if_neg h]

/-- Witness for C3 at concrete inputs. -/
theorem transient_error_preserves_state_witness :
    ¬((some 500 : Option ℕ) = some 401 ∨ (some 500 : Option ℕ) = some 403) ∧
    ((loadUserProfile "u1" (ProfileFetch.err "fetch failed" (some 500)) SignOutResult.ok
        "/jobs" authedState).1.user = authedState.user ∧
     (loadUserProfile "u1" (ProfileFetch.err "fetch failed" (some 500)) SignOutResult.ok
        "/jobs" authedState).1.profile = authedState.profile ∧
     (loadUserProfile "u1" (ProfileFetch.err "fetch failed" (some 500)) SignOutResult.ok
        "/jobs" authedState).1.isAuthenticated = authedState.isAuthenticated ∧
     (loadUserProfile "u1" (ProfileFetch.err "fetch failed" (some 500)) SignOutResult.ok
        "/jobs" authedState).1.error ≠ none ∧
     (loadUserProfile "u1" (ProfileFetch.err "fetch failed" (some 500)) SignOutResult.ok
        "/jobs" authedState).2 = []) :=
  ⟨by decide,
   transient_error_preserves_state "u1" "/jobs" "fetch failed" (some 500) SignOutResult.ok
     authedState (by decide)⟩

/-- C9 counterexample: the claim says a successful profile fetch clears the
error field, but the success branch of `loadUserProfile` only sets `profile`
and `isAuthenticated` and never calls `setError(null)`: a leftover error
message survives a successful fetch. -/
theorem profile_success_error_not_cleared_counterexample :
    (loadUserProfile "u1" (ProfileFetch.ok sampleProfile) SignOutResult.ok "/jobs"
        staleErrorState).1.error = some "previous error" ∧
    (loadUserProfile "u1" (ProfileFetch.ok sampleProfile) SignOutResult.ok "/jobs"
        staleErrorState).1.error ≠ none := by
  refine ⟨rfl, by simp [loadUserProfile, staleErrorState]⟩

/-- C9 (amended): a profile fetch that succeeds with a record stores the
record as the current profile, sets `isAuthenticated`, leaves the error field
(and the session) unchanged, and emits exactly one redirect — `/dashboard`
for an employer, `/jobs` otherwise — exactly when the current location is
`/login` or `/register`, and no redirect from any other location. -/
theorem profile_success_stores_and_redirects (userId currentPath : String)
    (p : Profile) (so : SignOutResult) (st : AuthState) :
    (loadUserProfile userId (ProfileFetch.ok p) so currentPath st).1.profile = some p ∧
    (loadUserProfile userId (ProfileFetch.ok p) so currentPath st).1.isAuthenticated = true ∧
    (loadUserProfile userId (ProfileFetch.ok p) so currentPath st).1.error = st.error ∧
    (loadUserProfile userId (ProfileFetch.ok p) so currentPath st).1.user = st.user ∧
    (loadUserProfile userId (ProfileFetch.ok p) so currentPath st).2 =
      (if currentPath = "/login" ∨ currentPath = "/register" then
        [Nav.navigate (if p.user_type = UserType.employer then "/dashboard" else "/jobs") true]
      else []) := by
  by_cases hp : currentPath = "/login" ∨ currentPath = "/register"
  · by_cases he : p.user_type = UserType.employer <;>
      simp [loadUserProfile, hp, he]
  · simp [loadUserProfile, hp]

end GestorVacantes
